import Mathlib

/-!
Verification development for the Electron SDK bridge layer
(`src/ts/Private/internal/IrisApiEngine.ts`): the inbound event router
(`handleEvent` / `emitEvent`), the outbound call dispatcher (`callIrisApi`),
and the observer-registry / listener-facade logic of `RtcEngineExInternal`.

The TypeScript code is shallowly embedded:
* dynamic JS values (JSON payloads, argument objects, buffer slots) become
  the inductive type `JsVal`;
* the process-wide static observer registries become the explicit state
  record `EngineState`;
* the publish/subscribe bus (`DeviceEventEmitter`, an `eventemitter3`
  instance) becomes an explicit list of subscriptions; callback identity is
  modelled by a natural-number id;
* a dispatch is a pure function from inputs to a `DispatchTrace` recording
  every preprocess execution, observer apply, and bus-listener invocation;
* JS exceptions (`try`/`catch`) become `Except Unit`.
-/

/-- Shallow embedding of a dynamic JS value as it occurs in the bridge
payloads: `undefined`, `null`, booleans, (big-int precise) numbers,
strings, raw byte buffers (`Uint8Array` / `Buffer`), arrays and objects.
Object fields are an ordered association list with unique keys. -/
inductive JsVal where
  | undefined : JsVal
  | null : JsVal
  | bool : Bool → JsVal
  | num : Int → JsVal
  | str : String → JsVal
  | buf : List Nat → JsVal
  | arr : List JsVal → JsVal
  | obj : List (String × JsVal) → JsVal
deriving Repr

/-- JS `String.prototype.startsWith`, computed on the character lists so
that concrete instances reduce inside the kernel. -/
def jsStartsWith (s pre : String) : Bool :=
  pre.data.isPrefixOf s.data

/-- JS `String.prototype.endsWith`, computed on the character lists. -/
def jsEndsWith (s post : String) : Bool :=
  post.data.isSuffixOf s.data

/-- Remove a leading prefix of length `n` from a string (the effect of
`str.replace(new RegExp('^' + prefixText), '')` when the prefix matched). -/
def jsDropChars (s : String) (n : Nat) : String :=
  String.mk (s.data.drop n)

/-- Remove the final `n` characters (the effect of `str.replace(/Ex$/g, '')`
when the string ends with `Ex`). -/
def jsDropRightChars (s : String) (n : Nat) : String :=
  String.mk (s.data.take (s.data.length - n))

/-- Lookup of an object field by key (first occurrence). -/
def jsLookup : List (String × JsVal) → String → Option JsVal
  | [], _ => none
  | (k, v) :: rest, key => if k == key then some v else jsLookup rest key

/-- JS property read `v.k`: `undefined` on non-objects and missing keys
(reading a property of a primitive yields `undefined`; reading a property
of `undefined`/`null` throws and is modelled separately by `propAccess`). -/
def getField (v : JsVal) (k : String) : JsVal :=
  match v with
  | .obj fs => (jsLookup fs k).getD .undefined
  | _ => .undefined

/-- JS `k in v` membership test (the code only applies it to parsed JSON
objects; on non-objects we return `false`). -/
def hasField (v : JsVal) (k : String) : Bool :=
  match v with
  | .obj fs => (jsLookup fs k).isSome
  | _ => false

/-- Replace the binding of `k` (first occurrence) or append it. -/
def setEntry : List (String × JsVal) → String → JsVal → List (String × JsVal)
  | [], k, x => [(k, x)]
  | (k0, v0) :: rest, k, x =>
    if k0 == k then (k0, x) :: rest else (k0, v0) :: setEntry rest k x

/-- JS property write `v.k = x`, modelled functionally. The bridge only
writes fields of objects (after a truthiness guard), so non-objects are
returned unchanged. -/
def setField (v : JsVal) (k : String) (x : JsVal) : JsVal :=
  match v with
  | .obj fs => .obj (setEntry fs k x)
  | _ => v

/-- JS truthiness, used by guards such as `if (data.audioFrame)`. -/
def truthy : JsVal → Bool
  | .undefined => false
  | .null => false
  | .bool b => b
  | .num n => !(n == 0)
  | .str s => !(s == "")
  | .buf _ => true
  | .arr _ => true
  | .obj _ => true

/-- A raw binary buffer (`Uint8Array`) of the inbound envelope. -/
abbrev Buf := List Nat

/-- Read `buffers[i]`: a missing index yields `undefined`, exactly as JS
array indexing does. -/
def bufAt (buffers : List Buf) (i : Nat) : JsVal :=
  match buffers.get? i with
  | some b => .buf b
  | none => .undefined

/-- An observer registered in one of the family registries. Registry
identity (`===`) is object identity in JS; we model each distinct observer
object by a distinct natural number. -/
abbrev Obs := Nat

/-- `EVENT_TYPE` from `IrisApiEngine.ts`. -/
inductive EVENT_TYPE where
  | IMediaEngine
  | IMediaPlayer
  | IMediaRecorder
  | IRtcEngine
  | IMusicContentCenter
deriving DecidableEq, Repr

/-- The generated per-method apply capabilities (`process*` functions
imported from the impl modules). They are external collaborators (opaque
`apply(handler, eventName, payload)` capabilities), so we model them as
atoms and record their invocations in the dispatch trace. -/
inductive ApplyFn where
  | processIAudioFrameObserver
  | processIAudioFrameObserverBase
  | processIVideoFrameObserver
  | processIAudioSpectrumObserver
  | processIAudioEncodedFrameObserver
  | processIVideoEncodedFrameObserver
  | processIMediaPlayerSourceObserver
  | processIAudioPcmFrameSink
  | processIMediaPlayerVideoFrameObserver
  | processIMediaRecorderObserver
  | processIMetadataObserver
  | processIDirectCdnStreamingEventHandler
  | processIRtcEngineEventHandler
  | processIMusicContentCenterEventHandler
deriving DecidableEq, Repr

/-- Modelled from the spec: the process-wide mutable observer registries.
`RtcEngineExInternal`'s five static registries are declared in
`src/ts/Private/internal/IrisApiEngine.ts`; the registries of
`MediaEngineInternal`, `MediaPlayerInternal`, `MediaRecorderInternal` and
`MusicContentCenterInternal` are declared in source files absent from
`src/` and are modelled from their uses in the event-family table and from
the spec's data model (global ordered observer lists, plus instance-scoped
registries keyed by player id or recorder native handle). -/
structure EngineState where
  rtc_event_handlers : List Obs
  rtc_direct_cdn_streaming_event_handler : List Obs
  rtc_metadata_observer : List Obs
  rtc_audio_encoded_frame_observers : List Obs
  rtc_audio_spectrum_observers : List Obs
  media_audio_frame_observers : List Obs
  media_video_frame_observers : List Obs
  media_video_encoded_frame_observers : List Obs
  player_source_observers : List (Int × List Obs)
  player_audio_frame_observers : List (Int × List Obs)
  player_video_frame_observers : List (Int × List Obs)
  player_audio_spectrum_observers : List (Int × List Obs)
  recorder_observers : List (String × Obs)
  mcc_event_handlers : List Obs
deriving Repr

/-- The `EngineState` with every registry empty (all statics start as empty
lists / empty maps). -/
def emptyEngineState : EngineState :=
  ⟨[], [], [], [], [], [], [], [], [], [], [], [], [], []⟩

/-- `Map.get(playerId)` on an instance-scoped registry: defined only when
the key is the number stored at registration. -/
def playerMapGet (m : List (Int × List Obs)) (key : JsVal) : Option (List Obs) :=
  match key with
  | .num n => m.lookup n
  | _ => none

/-- `MediaRecorderInternal._observers.get(nativeHandle)`. -/
def recorderMapGet (m : List (String × Obs)) (key : JsVal) : Option Obs :=
  match key with
  | .str s => m.lookup s
  | _ => none

/-- The signature of an `EventProcessor.preprocess` member. The source
mutates `data` in place; we return the updated payload. -/
abbrev PreFn := String → JsVal → List Buf → JsVal

/-- Shallow embedding of the `EventProcessor<T>` record type: the family's
name-prefix (the source calls the field `suffix`), the `type` tag
function, the ordered apply-capability list `func`, the optional
`preprocess`, and the target-resolution function `handlers`. `handlers`
reads the global registries, which we pass explicitly as `EngineState`. -/
structure EventProcessor where
  suffix : String
  type : JsVal → EVENT_TYPE
  func : List ApplyFn
  preprocess : Option PreFn
  handlers : String → JsVal → EngineState → Option (List (Option Obs))

/-- `EVENT_PROCESSORS.IAudioFrameObserver.preprocess`: if `data.audioFrame`
is truthy, splice `buffers[0]` into `data.audioFrame.buffer`. -/
def audioFrameObserverPreprocess : PreFn := fun _ data buffers =>
  if truthy (getField data "audioFrame") then
    setField data "audioFrame"
      (setField (getField data "audioFrame") "buffer" (bufAt buffers 0))
  else data

/-- `EVENT_PROCESSORS.IVideoFrameObserver.preprocess`: if `data.videoFrame`
is truthy, splice buffer slots 0..4 into its `yBuffer`, `uBuffer`,
`vBuffer`, `metadata_buffer` and `alphaBuffer` fields. -/
def videoFrameObserverPreprocess : PreFn := fun _ data buffers =>
  if truthy (getField data "videoFrame") then
    setField data "videoFrame"
      (setField (setField (setField (setField (setField
        (getField data "videoFrame")
        "yBuffer" (bufAt buffers 0))
        "uBuffer" (bufAt buffers 1))
        "vBuffer" (bufAt buffers 2))
        "metadata_buffer" (bufAt buffers 3))
        "alphaBuffer" (bufAt buffers 4))
  else data

/-- `EVENT_PROCESSORS.IAudioEncodedFrameObserver.preprocess`: on the three
encoded-audio events, `data.frameBuffer = buffers[0]`. -/
def audioEncodedFrameObserverPreprocess : PreFn := fun event data buffers =>
  if event == "OnRecordAudioEncodedFrame" || event == "OnPlaybackAudioEncodedFrame"
      || event == "OnMixedAudioEncodedFrame" then
    setField data "frameBuffer" (bufAt buffers 0)
  else data

/-- `EVENT_PROCESSORS.IVideoEncodedFrameObserver.preprocess`. -/
def videoEncodedFrameObserverPreprocess : PreFn := fun event data buffers =>
  if event == "onEncodedVideoFrameReceived" then
    setField data "imageBuffer" (bufAt buffers 0)
  else data

/-- `EVENT_PROCESSORS.IAudioPcmFrameSink.preprocess`: if `data.frame` is
truthy, `data.frame.data_ = Array.from(buffers[0] ?? [])`. -/
def audioPcmFrameSinkPreprocess : PreFn := fun _ data buffers =>
  if truthy (getField data "frame") then
    setField data "frame"
      (setField (getField data "frame") "data_"
        (.arr ((buffers.getD 0 []).map (fun x => .num (Int.ofNat x)))))
  else data

/-- `EVENT_PROCESSORS.IMediaPlayerVideoFrameObserver.preprocess`: like the
video-frame preprocess but on `data.frame`. -/
def mediaPlayerVideoFramePreprocess : PreFn := fun _ data buffers =>
  if truthy (getField data "frame") then
    setField data "frame"
      (setField (setField (setField (setField (setField
        (getField data "frame")
        "yBuffer" (bufAt buffers 0))
        "uBuffer" (bufAt buffers 1))
        "vBuffer" (bufAt buffers 2))
        "metadata_buffer" (bufAt buffers 3))
        "alphaBuffer" (bufAt buffers 4))
  else data

/-- `EVENT_PROCESSORS.IMetadataObserver.preprocess`: on
`onMetadataReceived`, if `data.metadata` is truthy,
`data.metadata.buffer = buffers[0]`. -/
def metadataObserverPreprocess : PreFn := fun event data buffers =>
  if event == "onMetadataReceived" then
    if truthy (getField data "metadata") then
      setField data "metadata"
        (setField (getField data "metadata") "buffer" (bufAt buffers 0))
    else data
  else data

/-- `EVENT_PROCESSORS.IRtcEngineEventHandler.preprocess`: on
`onStreamMessage` / `onStreamMessageEx`, `data.data = buffers[0]`. -/
def rtcEngineEventHandlerPreprocess : PreFn := fun event data buffers =>
  if event == "onStreamMessage" || event == "onStreamMessageEx" then
    setField data "data" (bufAt buffers 0)
  else data

/-- Modelled from the spec: `MusicCollectionInternal` (its source file is
absent from `src/`) wraps the raw `MusicCollection` payload in an internal
accessor object; we model the wrap as an opaque single-field object. -/
def MusicCollectionInternal (result : JsVal) : JsVal :=
  .obj [("musicCollection", result)]

/-- `EVENT_PROCESSORS.IMusicContentCenterEventHandler.preprocess`: on
`onMusicCollectionResult`, replace `data.result` with a
`MusicCollectionInternal` wrapping it. -/
def musicContentCenterPreprocess : PreFn := fun event data _ =>
  if event == "onMusicCollectionResult" then
    setField data "result" (MusicCollectionInternal (getField data "result"))
  else data

/-- `EVENT_PROCESSORS.IAudioFrameObserver`. -/
def IAudioFrameObserverProcessor : EventProcessor where
  suffix := "AudioFrameObserver_"
  type := fun _ => .IMediaEngine
  func := [.processIAudioFrameObserver, .processIAudioFrameObserverBase]
  preprocess := some audioFrameObserverPreprocess
  handlers := fun _ _ st => some (st.media_audio_frame_observers.map some)

/-- `EVENT_PROCESSORS.IVideoFrameObserver`. -/
def IVideoFrameObserverProcessor : EventProcessor where
  suffix := "VideoFrameObserver_"
  type := fun _ => .IMediaEngine
  func := [.processIVideoFrameObserver]
  preprocess := some videoFrameObserverPreprocess
  handlers := fun _ _ st => some (st.media_video_frame_observers.map some)

/-- `EVENT_PROCESSORS.IAudioSpectrumObserver`: `data.playerId === 0` picks
the engine-wide registry, otherwise the per-player map. -/
def IAudioSpectrumObserverProcessor : EventProcessor where
  suffix := "AudioSpectrumObserver_"
  type := fun data =>
    match getField data "playerId" with
    | .num 0 => .IRtcEngine
    | _ => .IMediaPlayer
  func := [.processIAudioSpectrumObserver]
  preprocess := none
  handlers := fun _ data st =>
    match getField data "playerId" with
    | .num 0 => some (st.rtc_audio_spectrum_observers.map some)
    | _ => (playerMapGet st.player_audio_spectrum_observers
              (getField data "playerId")).map (·.map some)

/-- `EVENT_PROCESSORS.IAudioEncodedFrameObserver`. -/
def IAudioEncodedFrameObserverProcessor : EventProcessor where
  suffix := "AudioEncodedFrameObserver_"
  type := fun _ => .IRtcEngine
  func := [.processIAudioEncodedFrameObserver]
  preprocess := some audioEncodedFrameObserverPreprocess
  handlers := fun _ _ st => some (st.rtc_audio_encoded_frame_observers.map some)

/-- `EVENT_PROCESSORS.IVideoEncodedFrameObserver`. -/
def IVideoEncodedFrameObserverProcessor : EventProcessor where
  suffix := "VideoEncodedFrameObserver_"
  type := fun _ => .IMediaEngine
  func := [.processIVideoEncodedFrameObserver]
  preprocess := some videoEncodedFrameObserverPreprocess
  handlers := fun _ _ st => some (st.media_video_encoded_frame_observers.map some)

/-- `EVENT_PROCESSORS.IMediaPlayerSourceObserver`. -/
def IMediaPlayerSourceObserverProcessor : EventProcessor where
  suffix := "MediaPlayerSourceObserver_"
  type := fun _ => .IMediaPlayer
  func := [.processIMediaPlayerSourceObserver]
  preprocess := none
  handlers := fun _ data st =>
    (playerMapGet st.player_source_observers (getField data "playerId")).map (·.map some)

/-- `EVENT_PROCESSORS.IAudioPcmFrameSink`. -/
def IAudioPcmFrameSinkProcessor : EventProcessor where
  suffix := "AudioPcmFrameSink_"
  type := fun _ => .IMediaPlayer
  func := [.processIAudioPcmFrameSink]
  preprocess := some audioPcmFrameSinkPreprocess
  handlers := fun _ data st =>
    (playerMapGet st.player_audio_frame_observers (getField data "playerId")).map (·.map some)

/-- `EVENT_PROCESSORS.IMediaPlayerVideoFrameObserver`. -/
def IMediaPlayerVideoFrameObserverProcessor : EventProcessor where
  suffix := "MediaPlayerVideoFrameObserver_"
  type := fun _ => .IMediaPlayer
  func := [.processIMediaPlayerVideoFrameObserver]
  preprocess := some mediaPlayerVideoFramePreprocess
  handlers := fun _ data st =>
    (playerMapGet st.player_video_frame_observers (getField data "playerId")).map (·.map some)

/-- `EVENT_PROCESSORS.IMediaRecorderObserver`: a one-element target list
whose sole entry is the (possibly missing) per-recorder observer. -/
def IMediaRecorderObserverProcessor : EventProcessor where
  suffix := "MediaRecorderObserver_"
  type := fun _ => .IMediaRecorder
  func := [.processIMediaRecorderObserver]
  preprocess := none
  handlers := fun _ data st =>
    some [recorderMapGet st.recorder_observers (getField data "nativeHandle")]

/-- `EVENT_PROCESSORS.IMetadataObserver`. -/
def IMetadataObserverProcessor : EventProcessor where
  suffix := "MetadataObserver_"
  type := fun _ => .IRtcEngine
  func := [.processIMetadataObserver]
  preprocess := some metadataObserverPreprocess
  handlers := fun _ _ st => some (st.rtc_metadata_observer.map some)

/-- `EVENT_PROCESSORS.IDirectCdnStreamingEventHandler`. -/
def IDirectCdnStreamingEventHandlerProcessor : EventProcessor where
  suffix := "DirectCdnStreamingEventHandler_"
  type := fun _ => .IRtcEngine
  func := [.processIDirectCdnStreamingEventHandler]
  preprocess := none
  handlers := fun _ _ st => some (st.rtc_direct_cdn_streaming_event_handler.map some)

/-- `EVENT_PROCESSORS.IRtcEngineEventHandler`: an `onLocalVideoStats` event
whose payload carries a `connection` field resolves to the no-targets
sentinel (`undefined`); every other event resolves to the engine-wide
handler list. -/
def IRtcEngineEventHandlerProcessor : EventProcessor where
  suffix := "RtcEngineEventHandler_"
  type := fun _ => .IRtcEngine
  func := [.processIRtcEngineEventHandler]
  preprocess := some rtcEngineEventHandlerPreprocess
  handlers := fun event data st =>
    if event == "onLocalVideoStats" && hasField data "connection" then none
    else some (st.rtc_event_handlers.map some)

/-- `EVENT_PROCESSORS.IMusicContentCenterEventHandler`. -/
def IMusicContentCenterEventHandlerProcessor : EventProcessor where
  suffix := "MusicContentCenterEventHandler_"
  type := fun _ => .IMusicContentCenter
  func := [.processIMusicContentCenterEventHandler]
  preprocess := some musicContentCenterPreprocess
  handlers := fun _ _ st => some (st.mcc_event_handlers.map some)

/-- The `EVENT_PROCESSORS` table, in source (insertion) order — the order
`Object.values` iterates for family resolution. -/
def EVENT_PROCESSORS : List EventProcessor :=
  [IAudioFrameObserverProcessor,
   IVideoFrameObserverProcessor,
   IAudioSpectrumObserverProcessor,
   IAudioEncodedFrameObserverProcessor,
   IVideoEncodedFrameObserverProcessor,
   IMediaPlayerSourceObserverProcessor,
   IAudioPcmFrameSinkProcessor,
   IMediaPlayerVideoFrameObserverProcessor,
   IMediaRecorderObserverProcessor,
   IMetadataObserverProcessor,
   IDirectCdnStreamingEventHandlerProcessor,
   IRtcEngineEventHandlerProcessor,
   IMusicContentCenterEventHandlerProcessor]

/-- A subscription held by the publish/subscribe bus: an event name and the
identity of the registered callback function. -/
structure BusEntry where
  event : String
  cbId : Nat
deriving DecidableEq, Repr

/-- `DeviceEventEmitter.listenerCount(eventName)`. -/
def busListenerCount (bus : List BusEntry) (event : String) : Nat :=
  (bus.filter (fun b => b.event == event)).length

/-- Everything observable a single inbound dispatch does:
* `preprocessFamily` — number of preprocess executions performed on the
  family path (step 5 of the router);
* `preprocessEmit` — number of preprocess executions performed inside the
  bus republish (`emitEvent`);
* `applies` — the apply-capability invocations `(fn, target, name, payload)`
  in execution order;
* `busCalls` — the bus-listener invocations `(callback, name, payload)`. -/
structure DispatchTrace where
  preprocessFamily : Nat
  preprocessEmit : Nat
  applies : List (ApplyFn × Obs × String × JsVal)
  busCalls : List (Nat × String × JsVal)
deriving Repr

/-- The trace of a dispatch that did nothing. -/
def emptyTrace : DispatchTrace := ⟨0, 0, [], []⟩

/-- Shallow embedding of `emitEvent`: return without effect when no bus
listener is registered for the event name; otherwise run the processor's
`preprocess` if it is still set (clearing it afterwards — the cleared copy
is never consulted again within the dispatch, so the model only counts the
one execution) and invoke every registered listener with the event name
and (possibly preprocessed) payload. Returns the number of preprocess
executions together with the listener invocations. -/
def emitEventModel (bus : List BusEntry) (event : String) (pre : Option PreFn)
    (data : JsVal) (buffers : Option (List Buf)) : Nat × List (Nat × String × JsVal) :=
  if busListenerCount bus event = 0 then (0, [])
  else
    match pre with
    | some pp =>
      let d2 := pp event data (buffers.getD [])
      (1, (bus.filter (fun b => b.event == event)).map (fun b => (b.cbId, event, d2)))
    | none =>
      (0, (bus.filter (fun b => b.event == event)).map (fun b => (b.cbId, event, data)))

/-- Event-name normalization of `handleEvent`: strip the matched family
prefix, then strip a trailing `Ex` connection suffix if present. -/
def normalizeEvent (suffix event : String) : String :=
  let e := jsDropChars event suffix.data.length
  if jsEndsWith e "Ex" then jsDropRightChars e 2 else e

/-- `JSON.parse(data) ?? {}` wrapped in `try`/`catch`: a parse failure
(`Except.error`) or a `null` result is replaced by the empty object. The
raw payload text is represented by its parse outcome. -/
def parseData (payload : Except Unit JsVal) : JsVal :=
  match payload with
  | .ok v => match v with
             | .null => .obj []
             | _ => v
  | .error _ => .obj []

/-- The family apply loop: for every non-empty resolved target, invoke
every apply capability of the family in order
(`handlers.map(value => { if (value) { processor.func.map(...) } })`). -/
def applyLoop (funcs : List ApplyFn) (targets : List (Option Obs))
    (event : String) (data : JsVal) : List (ApplyFn × Obs × String × JsVal) :=
  (targets.filterMap id).flatMap (fun v => funcs.map (fun f => (f, v, event, data)))

/-- The body of `handleEvent` once the family descriptor is resolved.
The source takes a local copy of the descriptor (`processor = {...processor}`)
so that clearing `preprocess` after its single execution is local to this
dispatch; the model threads the cleared copy by passing `none` to
`emitEventModel` on the paths where the family path already ran it. -/
def dispatchWithProcessor (st : EngineState) (bus : List BusEntry)
    (p : EventProcessor) (event : String) (d : JsVal) (buffers : List Buf) : DispatchTrace :=
  match p.handlers (normalizeEvent p.suffix event) d st with
  | some hs =>
    match p.preprocess with
    | some pp =>
      ⟨1,
       (emitEventModel bus (normalizeEvent p.suffix event) none
         (pp (normalizeEvent p.suffix event) d buffers) (some buffers)).1,
       applyLoop p.func hs (normalizeEvent p.suffix event)
         (pp (normalizeEvent p.suffix event) d buffers),
       (emitEventModel bus (normalizeEvent p.suffix event) none
         (pp (normalizeEvent p.suffix event) d buffers) (some buffers)).2⟩
    | none =>
      ⟨0, (emitEventModel bus (normalizeEvent p.suffix event) none d (some buffers)).1,
       applyLoop p.func hs (normalizeEvent p.suffix event) d,
       (emitEventModel bus (normalizeEvent p.suffix event) none d (some buffers)).2⟩
  | none =>
    ⟨0, (emitEventModel bus (normalizeEvent p.suffix event) p.preprocess d (some buffers)).1,
     [],
     (emitEventModel bus (normalizeEvent p.suffix event) p.preprocess d (some buffers)).2⟩

/-- Family resolution: the first entry of `EVENT_PROCESSORS` whose
name-prefix (`suffix` field) is a prefix of the raw event name. -/
def resolveFamily (event : String) : Option EventProcessor :=
  EVENT_PROCESSORS.find? (fun p => jsStartsWith event p.suffix)

/-- `handleEvent` on an already parsed payload. -/
def handleEventWithData (st : EngineState) (bus : List BusEntry)
    (event : String) (d : JsVal) (buffers : List Buf) : DispatchTrace :=
  match resolveFamily event with
  | none => emptyTrace
  | some p => dispatchWithProcessor st bus p event d buffers

/-- Shallow embedding of `handleEvent`: resolve the family by first prefix
match (dropping the event silently when none matches), normalize the name,
parse the payload (substituting `{}` on failure), resolve targets, run the
at-most-once preprocess, run the apply loop, and republish on the bus. -/
def handleEvent (st : EngineState) (bus : List BusEntry) (event : String)
    (payload : Except Unit JsVal) (buffers : List Buf) : DispatchTrace :=
  handleEventWithData st bus event (parseData payload) buffers

/-- JS property read `v.k` as an expression that can throw: reading a
property of `undefined` or `null` raises a `TypeError` (caught by
`callIrisApi`'s surrounding `try`); on any other value it yields the field
or `undefined`. -/
def propAccess (v : JsVal) (k : String) : Except Unit JsVal :=
  match v with
  | .undefined => .error ()
  | .null => .error ()
  | _ => .ok (getField v k)

/-- The per-instance context `this` of a `callIrisApi.call(this, ...)`
invocation: a media player exposes `getMediaPlayerId()`, a media recorder
exposes `nativeHandle`. `none` fields model a `this` without the member
(so that reading it for an instance-scoped method throws). -/
structure CallCtx where
  mediaPlayerId : Option Int
  nativeHandle : Option String

/-- A `this` that is not bound to a player or recorder instance. -/
def engineCtx : CallCtx := ⟨none, none⟩

/-- What `AgoraRtcNg.CallApi` returns: the numeric return code and the
(possibly absent or empty) result text. `none` models
`undefined`/`null`. -/
structure BridgeResult where
  callApiReturnCode : Int
  callApiResult : Option String

/-- The boundary endpoint `AgoraRtcNg.CallApi(funcName, jsonArgs, buffers,
bufferCount)`, an opaque external collaborator. -/
abbrev BridgeFn := String → String → List JsVal → Nat → BridgeResult

/-- The boundary-side effects `callIrisApi` performs, in order:
environment setup, the boundary call itself, environment teardown. -/
inductive EnvOp where
  | initEnv
  | releaseEnv
  | callApi (funcName : String) (jsonArgs : String) (buffers : List JsVal) (bufferCount : Nat)
deriving Repr

/-- The outcome of the switch at the head of `callIrisApi`: the extracted
outbound buffer list, the object that `JSON.stringify(params)` will
serialize (accounting for the `toJSON` overrides the instance-scoped
branches install), the environment operations performed before the main
boundary call, and whether this is the special `RtcEngine_release` path. -/
structure MarshalOut where
  buffers : List JsVal
  serialized : JsVal
  preOps : List EnvOp
  release : Bool

/-- Shallow embedding of the argument-marshaling switch of `callIrisApi`
(the part of the `try` block before the main `AgoraRtcNg.CallApi` call).
Notes on the instance-scoped branches: `params.toJSON?.call()` is `undefined`
for a plain argument object, so the installed `toJSON` override serializes
exactly the injected identity field; `MediaPlayerInternal` (absent from
`src/`) exposes the player id it was constructed with, modelled for
`RtcEngine_destroyMediaPlayer` as the `mediaPlayerId` field of the
`media_player` argument. -/
def marshalModel (ctx : CallCtx) (funcName : String) (params : JsVal) : Except Unit MarshalOut :=
  if jsStartsWith funcName "MediaEngine_" then
    if funcName == "MediaEngine_pushAudioFrame"
        || funcName == "MediaEngine_pushCaptureAudioFrame"
        || funcName == "MediaEngine_pushReverseAudioFrame"
        || funcName == "MediaEngine_pushDirectAudioFrame" then do
      let f ← propAccess params "frame"
      let b ← propAccess f "buffer"
      .ok ⟨[b], params, [], false⟩
    else if funcName == "MediaEngine_pushVideoFrame" then do
      let f ← propAccess params "frame"
      let b ← propAccess f "buffer"
      let f2 ← propAccess params "frame"
      let a ← propAccess f2 "alphaBuffer"
      .ok ⟨[b, .buf [], .buf [], a, .buf []], params, [], false⟩
    else if funcName == "MediaEngine_pushEncodedVideoImage" then do
      let b ← propAccess params "imageBuffer"
      .ok ⟨[b], params, [], false⟩
    else .ok ⟨[], params, [], false⟩
  else if jsStartsWith funcName "MediaPlayer_" || jsStartsWith funcName "MusicPlayer_" then
    match ctx.mediaPlayerId with
    | some pid => .ok ⟨[], .obj [("playerId", .num pid)], [], false⟩
    | none => .error ()
  else if jsStartsWith funcName "MediaRecorder_" then
    match ctx.nativeHandle with
    | some h => .ok ⟨[], .obj [("nativeHandle", .str h)], [], false⟩
    | none => .error ()
  else if jsStartsWith funcName "RtcEngine_" then
    if funcName == "RtcEngine_initialize" then
      .ok ⟨[], params, [.initEnv], false⟩
    else if funcName == "RtcEngine_release" then
      .ok ⟨[], params, [], true⟩
    else if funcName == "RtcEngine_sendMetaData" then do
      let m ← propAccess params "metadata"
      let b ← propAccess m "buffer"
      .ok ⟨[b], params, [], false⟩
    else if funcName == "RtcEngine_sendStreamMessage"
        || funcName == "RtcEngine_sendStreamMessageEx" then do
      let d ← propAccess params "data"
      .ok ⟨[d], params, [], false⟩
    else if funcName == "RtcEngine_destroyMediaPlayer" then do
      let mp ← propAccess params "media_player"
      match mp with
      | .undefined => .error ()
      | .null => .error ()
      | _ =>
        match getField mp "mediaPlayerId" with
        | .num pid => .ok ⟨[], .obj [("playerId", .num pid)], [], false⟩
        | _ => .error ()
    else if funcName == "RtcEngine_destroyMediaRecorder" then
      match ctx.nativeHandle with
      | some h => .ok ⟨[], .obj [("nativeHandle", .str h)], [], false⟩
      | none => .error ()
    else .ok ⟨[], params, [], false⟩
  else .ok ⟨[], params, [], false⟩

/-- Log severities emitted through `Utils`' logging helpers. -/
inductive LogLevel where
  | error
  | warn
  | debug
deriving DecidableEq, Repr

/-- Decoding of the boundary result (`callApiReturnCode`, `callApiResult`):
non-empty `resultText` is JSON-parsed (a parse failure throws into the
surrounding `catch`) and logged at error/debug level in debug mode;
an empty or absent `resultText` synthesizes `{ result: returnCode }` and
logs at error level in debug mode, warning level otherwise. -/
def decodeResult (parse : String → Except Unit JsVal) (debuggable : Bool)
    (br : BridgeResult) : Except Unit (JsVal × List LogLevel) :=
  match br.callApiResult with
  | some ret =>
    if ret == "" then
      .ok (.obj [("result", .num br.callApiReturnCode)],
           [if debuggable then .error else .warn])
    else
      match parse ret with
      | .ok retObj =>
        .ok (retObj,
             if debuggable then
               match getField retObj "result" with
               | .num n => if n < 0 then [LogLevel.error] else [LogLevel.debug]
               | _ => [LogLevel.debug]
             else [])
      | .error _ => .error ()
  | none =>
    .ok (.obj [("result", .num br.callApiReturnCode)],
         [if debuggable then .error else .warn])

/-- The post-marshal stage of `callIrisApi`: the special
`RtcEngine_release` path performs the boundary call and environment
teardown and returns with no decoded result; every other call invokes the
boundary endpoint once and decodes the result. Returns the boundary
operations performed together with either the returned value and log
trail, or the raised exception. -/
def callWithMarshal (bridge : BridgeFn) (parse : String → Except Unit JsVal)
    (debuggable : Bool) (funcName : String) (json : String) (m : MarshalOut) :
    List EnvOp × Except Unit (JsVal × List LogLevel) :=
  if m.release = true then
    (m.preOps ++ [.callApi funcName json m.buffers m.buffers.length, .releaseEnv],
     .ok (.undefined, []))
  else
    (m.preOps ++ [.callApi funcName json m.buffers m.buffers.length],
     decodeResult parse debuggable (bridge funcName json m.buffers m.buffers.length))

/-- The `try` block of `callIrisApi`: the marshaling switch followed by
the boundary call(s) and result decoding. A marshaling exception aborts
before any boundary call. `stringifyFn` models the external `json-bigint`
`JSON.stringify`. -/
def callIrisApiBody (ctx : CallCtx) (bridge : BridgeFn)
    (stringifyFn : JsVal → String) (parse : String → Except Unit JsVal)
    (debuggable : Bool) (funcName : String) (params : JsVal) :
    List EnvOp × Except Unit (JsVal × List LogLevel) :=
  match marshalModel ctx funcName params with
  | .error e => ([], .error e)
  | .ok m => callWithMarshal bridge parse debuggable funcName (stringifyFn m.serialized) m

/-- The observable outcome of one `callIrisApi` invocation. -/
structure CallOutcome where
  ret : JsVal
  logs : List LogLevel
  calls : List EnvOp
deriving Repr

/-- Shallow embedding of `callIrisApi`: the `try` body, with any raised
exception caught, logged (error level in debug mode, warning otherwise),
and degraded to the empty result object. The function is total: no
exception propagates to the caller. -/
def callIrisApi (ctx : CallCtx) (bridge : BridgeFn)
    (stringifyFn : JsVal → String) (parse : String → Except Unit JsVal)
    (debuggable : Bool) (funcName : String) (params : JsVal) : CallOutcome :=
  match callIrisApiBody ctx bridge stringifyFn parse debuggable funcName params with
  | (ops, .ok (v, logs)) => ⟨v, logs, ops⟩
  | (ops, .error _) => ⟨.obj [], [if debuggable then .error else .warn], ops⟩

/-- The buffer lists passed to the boundary endpoint, in call order. -/
def callApiBuffers : List EnvOp → List (List JsVal)
  | [] => []
  | .callApi _ _ bufs _ :: rest => bufs :: callApiBuffers rest
  | _ :: rest => callApiBuffers rest

/-- The buffer counts passed to the boundary endpoint, in call order. -/
def callApiBufferCounts : List EnvOp → List Nat
  | [] => []
  | .callApi _ _ _ n :: rest => n :: callApiBufferCounts rest
  | _ :: rest => callApiBufferCounts rest

/-- The registration pattern shared by every family registry in
`RtcEngineExInternal`: append unless an identical-by-identity entry is
already present (`if (!list.find(value => value === x)) list.push(x)`). -/
def registerObserverList (l : List Obs) (o : Obs) : List Obs :=
  if (l.find? (fun value => value == o)).isSome then l else l ++ [o]

/-- The unregistration pattern shared by every family registry:
`list = list.filter(value => value !== x)`. -/
def unregisterObserverList (l : List Obs) (o : Obs) : List Obs :=
  l.filter (fun value => !(value == o))

/-- `RtcEngineExInternal.registerEventHandler` (registry effect; the
forwarded `super` call is an external collaborator). -/
def registerEventHandler (st : EngineState) (eventHandler : Obs) : EngineState :=
  { st with rtc_event_handlers := registerObserverList st.rtc_event_handlers eventHandler }

/-- `RtcEngineExInternal.unregisterEventHandler` (registry effect). -/
def unregisterEventHandler (st : EngineState) (eventHandler : Obs) : EngineState :=
  { st with rtc_event_handlers := unregisterObserverList st.rtc_event_handlers eventHandler }

/-- `RtcEngineExInternal.registerMediaMetadataObserver` (registry effect). -/
def registerMediaMetadataObserver (st : EngineState) (observer : Obs) : EngineState :=
  { st with rtc_metadata_observer := registerObserverList st.rtc_metadata_observer observer }

/-- `RtcEngineExInternal.unregisterMediaMetadataObserver` (registry effect). -/
def unregisterMediaMetadataObserver (st : EngineState) (observer : Obs) : EngineState :=
  { st with rtc_metadata_observer := unregisterObserverList st.rtc_metadata_observer observer }

/-- `RtcEngineExInternal.registerAudioEncodedFrameObserver` (registry
effect). -/
def registerAudioEncodedFrameObserver (st : EngineState) (observer : Obs) : EngineState :=
  { st with rtc_audio_encoded_frame_observers :=
      registerObserverList st.rtc_audio_encoded_frame_observers observer }

/-- `RtcEngineExInternal.unregisterAudioEncodedFrameObserver` (registry
effect). -/
def unregisterAudioEncodedFrameObserver (st : EngineState) (observer : Obs) : EngineState :=
  { st with rtc_audio_encoded_frame_observers :=
      unregisterObserverList st.rtc_audio_encoded_frame_observers observer }

/-- `RtcEngineExInternal.registerAudioSpectrumObserver` (registry effect). -/
def registerAudioSpectrumObserver (st : EngineState) (observer : Obs) : EngineState :=
  { st with rtc_audio_spectrum_observers :=
      registerObserverList st.rtc_audio_spectrum_observers observer }

/-- `RtcEngineExInternal.unregisterAudioSpectrumObserver` (registry
effect). -/
def unregisterAudioSpectrumObserver (st : EngineState) (observer : Obs) : EngineState :=
  { st with rtc_audio_spectrum_observers :=
      unregisterObserverList st.rtc_audio_spectrum_observers observer }

/-- `RtcEngineExInternal.startDirectCdnStreaming` (registry effect: the
handler is appended unless already present). -/
def startDirectCdnStreaming (st : EngineState) (eventHandler : Obs) : EngineState :=
  { st with rtc_direct_cdn_streaming_event_handler :=
      registerObserverList st.rtc_direct_cdn_streaming_event_handler eventHandler }

/-- Modelled from the spec: the category-membership tests
`checkers.<Interface>.strictTest({ [eventType]: undefined })` built by
`ts-interface-checker` over the generated interface descriptors
(`AgoraBase-ti`, `AgoraMediaBase-ti`, `IAgoraRtcEngine-ti`, absent from
`src/`). Each predicate answers whether the event name is declared by the
corresponding observer interface. -/
structure Checkers where
  isRtcEngineEvt : String → Bool
  isDirectCdnEvt : String → Bool
  isMetadataEvt : String → Bool
  isAudioEncodedFrameEvt : String → Bool
  isAudioSpectrumEvt : String → Bool

/-- Modelled from the spec: a concrete instance of the membership tests
covering one representative event name per category (the categories the
spec names: engine events and audio-spectrum events are permissive,
direct-CDN-streaming, metadata-observer and encoded-audio-frame events are
strict). -/
def checkersModel : Checkers where
  isRtcEngineEvt := fun e => e == "onJoinChannelSuccess" || e == "onLocalVideoStats"
    || e == "onStreamMessage"
  isDirectCdnEvt := fun e => e == "onDirectCdnStreamingStateChanged"
  isMetadataEvt := fun e => e == "onMetadataReceived"
  isAudioEncodedFrameEvt := fun e => e == "onRecordAudioEncodedFrame"
  isAudioSpectrumEvt := fun e => e == "onLocalAudioSpectrum"

/-- The diagnostics `_addListenerPreCheck` prints with `console.error`. -/
def directCdnDiag : String :=
  "Please call `startDirectCdnStreaming` before you want to receive event by `addListener`"

/-- See `directCdnDiag`. -/
def metadataDiag : String :=
  "Please call `registerMediaMetadataObserver` before you want to receive event by `addListener`"

/-- See `directCdnDiag`. -/
def audioEncodedFrameDiag : String :=
  "Please call `registerAudioEncodedFrameObserver` before you want to receive event by `addListener`"

/-- Shallow embedding of `RtcEngineExInternal._addListenerPreCheck`:
permissive categories (engine events, audio-spectrum events) auto-register
a default empty observer when their registry is empty; strict categories
(direct-CDN streaming, metadata, encoded audio frames) report a diagnostic
and return `false`. `freshHandler` / `freshSpectrum` stand for the fresh
`{}` observer objects the permissive branches register. Returns the
boolean result, the updated registries, and the diagnostics printed. -/
def addListenerPreCheck (chk : Checkers) (st : EngineState) (eventType : String)
    (freshHandler freshSpectrum : Obs) : Bool × EngineState × List String :=
  let st1 := if chk.isRtcEngineEvt eventType && st.rtc_event_handlers.isEmpty
             then registerEventHandler st freshHandler else st
  if chk.isDirectCdnEvt eventType && st1.rtc_direct_cdn_streaming_event_handler.isEmpty then
    (false, st1, [directCdnDiag])
  else if chk.isMetadataEvt eventType && st1.rtc_metadata_observer.isEmpty then
    (false, st1, [metadataDiag])
  else if chk.isAudioEncodedFrameEvt eventType && st1.rtc_audio_encoded_frame_observers.isEmpty then
    (false, st1, [audioEncodedFrameDiag])
  else
    let st2 := if chk.isAudioSpectrumEvt eventType && st1.rtc_audio_spectrum_observers.isEmpty
               then registerAudioSpectrumObserver st1 freshSpectrum else st1
    (true, st2, [])

/-- A user-facing listener object: its own function identity, and the
`agoraCallback` slot `addListener` stashes the derived dispatch-callback
in. -/
structure Listener where
  id : Nat
  agoraCallback : Option Nat
deriving DecidableEq, Repr

/-- Modelled from the spec: `EventEmitter.addListener` of the external
`eventemitter3` bus appends a subscription for the event name. -/
def eeAddListener (bus : List BusEntry) (event : String) (cb : Nat) : List BusEntry :=
  bus ++ [⟨event, cb⟩]

/-- Modelled from the spec: `EventEmitter.removeListener(event, fn)` of the
external `eventemitter3` bus removes every subscription for `event` bound
to `fn`; with `fn` absent it removes every subscription for `event`. -/
def eeRemoveListener (bus : List BusEntry) (event : String) (fn : Option Nat) : List BusEntry :=
  match fn with
  | none => bus.filter (fun b => !(b.event == event))
  | some f => bus.filter (fun b => !(b.event == event && b.cbId == f))

/-- Modelled from the spec: `EventEmitter.removeAllListeners(event?)` of
the external `eventemitter3` bus. -/
def eeRemoveAllListeners (bus : List BusEntry) (event : Option String) : List BusEntry :=
  match event with
  | none => []
  | some e => bus.filter (fun b => !(b.event == e))

/-- The derived dispatch-callback `RtcEngineExInternal.addListener` builds
around the user listener: drop events whose family `type` is not
`IRtcEngine`, otherwise forward through every apply capability with a
one-listener handler object. Returns the forwarded apply invocations. -/
def rtcListenerCallback (eventType : String) (listenerId : Nat)
    (eventProcessor : EventProcessor) (data : JsVal) :
    List (ApplyFn × Nat × String × JsVal) :=
  if eventProcessor.type data ≠ EVENT_TYPE.IRtcEngine then []
  else eventProcessor.func.map (fun f => (f, listenerId, eventType, data))

/-- Shallow embedding of `RtcEngineExInternal.addListener`: run the
precondition check (its boolean result is discarded by the source), build
the derived callback (`freshCb` is its function identity), stash it on the
listener object (`listener.agoraCallback = callback`), and subscribe it on
the bus. Returns the updated registries, bus and listener object. -/
def rtcAddListener (chk : Checkers) (st : EngineState) (bus : List BusEntry)
    (eventType : String) (listener : Listener) (freshCb freshHandler freshSpectrum : Nat) :
    EngineState × List BusEntry × Listener :=
  let pre := addListenerPreCheck chk st eventType freshHandler freshSpectrum
  (pre.2.1, eeAddListener bus eventType freshCb, { listener with agoraCallback := some freshCb })

/-- Shallow embedding of `RtcEngineExInternal.removeListener`: remove the
bus subscription matching `listener?.agoraCallback ?? listener` — the
derived callback stashed at registration when present, the raw listener
function otherwise, and every subscription for the event name when no
listener argument is given. -/
def rtcRemoveListener (bus : List BusEntry) (eventType : String)
    (listener : Option Listener) : List BusEntry :=
  eeRemoveListener bus eventType
    (match listener with
     | none => none
     | some l => some (l.agoraCallback.getD l.id))

/-- `RtcEngineExInternal.removeAllListeners`. -/
def rtcRemoveAllListeners (bus : List BusEntry) (eventType : Option String) : List BusEntry :=
  eeRemoveAllListeners bus eventType

/-- The callbacks an `emit(event)` on the bus would invoke, in
subscription order. -/
def busEmitCalls (bus : List BusEntry) (event : String) : List Nat :=
  (bus.filter (fun b => b.event == event)).map (fun b => b.cbId)

/-- The five outbound buffer slots for `MediaEngine_pushVideoFrame` exactly
as the claim words them ("frame buffer, three empty placeholders, then
alpha buffer or empty"): the frame buffer first, then three empty
placeholder buffers, then the alpha buffer or an empty placeholder when it
is absent. Stated from the spec for comparison against the slots the code
extracts. -/
def pushVideoFrameClaimedSlots (params : JsVal) : List JsVal :=
  [getField (getField params "frame") "buffer",
   .buf [], .buf [], .buf [],
   match getField (getField params "frame") "alphaBuffer" with
   | .undefined => .buf []
   | v => v]

theorem emitEventModel_none_fst (bus : List BusEntry) (event : String)
    (data : JsVal) (buffers : Option (List Buf)) :
    (emitEventModel bus event none data buffers).1 = 0 := by
  unfold emitEventModel
  split <;> rfl

theorem handleEventWithData_some (st : EngineState) (bus : List BusEntry)
    (event : String) (d : JsVal) (buffers : List Buf) (p : EventProcessor)
    (h : resolveFamily event = some p) :
    handleEventWithData st bus event d buffers =
      dispatchWithProcessor st bus p event d buffers := by
  unfold handleEventWithData
  rw [h]

theorem handleEventWithData_none (st : EngineState) (bus : List BusEntry)
    (event : String) (d : JsVal) (buffers : List Buf)
    (h : resolveFamily event = none) :
    handleEventWithData st bus event d buffers = emptyTrace := by
  unfold handleEventWithData
  rw [h]

theorem dispatchWithProcessor_targets_pre (st : EngineState) (bus : List BusEntry)
    (p : EventProcessor) (event : String) (d : JsVal) (buffers : List Buf)
    (hs : List (Option Obs)) (pp : PreFn)
    (hh : p.handlers (normalizeEvent p.suffix event) d st = some hs)
    (hp : p.preprocess = some pp) :
    dispatchWithProcessor st bus p event d buffers =
      ⟨1,
       (emitEventModel bus (normalizeEvent p.suffix event) none
         (pp (normalizeEvent p.suffix event) d buffers) (some buffers)).1,
       applyLoop p.func hs (normalizeEvent p.suffix event)
         (pp (normalizeEvent p.suffix event) d buffers),
       (emitEventModel bus (normalizeEvent p.suffix event) none
         (pp (normalizeEvent p.suffix event) d buffers) (some buffers)).2⟩ := by
  unfold dispatchWithProcessor
  rw [hh, hp]

theorem dispatchWithProcessor_no_targets (st : EngineState) (bus : List BusEntry)
    (p : EventProcessor) (event : String) (d : JsVal) (buffers : List Buf)
    (hh : p.handlers (normalizeEvent p.suffix event) d st = none) :
    dispatchWithProcessor st bus p event d buffers =
      ⟨0,
       (emitEventModel bus (normalizeEvent p.suffix event) p.preprocess d (some buffers)).1,
       [],
       (emitEventModel bus (normalizeEvent p.suffix event) p.preprocess d (some buffers)).2⟩ := by
  unfold dispatchWithProcessor
  rw [hh]

/-- C1: when the raw name matches a family and target resolution returns a
target list, the family's preprocess executes exactly once on the family
path and the bus republish never runs it a second time — for every registry
state, every target list (so in particular multiple observers), every
apply-function list, and regardless of the bus subscriptions at dispatch
time. -/
theorem c1_preprocess_exactly_once (st : EngineState) (bus : List BusEntry)
    (event : String) (payload : Except Unit JsVal) (buffers : List Buf)
    (p : EventProcessor) (hs : List (Option Obs)) (pp : PreFn)
    (hfind : resolveFamily event = some p)
    (hh : p.handlers (normalizeEvent p.suffix event) (parseData payload) st = some hs)
    (hp : p.preprocess = some pp) :
    (handleEvent st bus event payload buffers).preprocessFamily = 1 ∧
    (handleEvent st bus event payload buffers).preprocessEmit = 0 := by
  unfold handleEvent
  rw [handleEventWithData_some st bus event (parseData payload) buffers p hfind,
    dispatchWithProcessor_targets_pre st bus p event (parseData payload) buffers hs pp hh hp]
  exact ⟨rfl, emitEventModel_none_fst ..⟩

/-- Witness for C1 at a concrete dispatch: two registered video-frame
observers, a single apply capability, and a bus listener for the
normalized name. -/
theorem c1_preprocess_exactly_once_witness :
    (handleEvent { emptyEngineState with media_video_frame_observers := [1, 2] }
      [⟨"onCaptureVideoFrame", 7⟩] "VideoFrameObserver_onCaptureVideoFrame"
      (.ok (.obj [])) []).preprocessFamily = 1 ∧
    (handleEvent { emptyEngineState with media_video_frame_observers := [1, 2] }
      [⟨"onCaptureVideoFrame", 7⟩] "VideoFrameObserver_onCaptureVideoFrame"
      (.ok (.obj [])) []).preprocessEmit = 0 :=
  c1_preprocess_exactly_once _ _ _ _ _ IVideoFrameObserverProcessor
    [some 1, some 2] videoFrameObserverPreprocess rfl rfl rfl

/-- C8: an inbound payload whose text fails to parse (or parses to `null`)
dispatches exactly like the empty-object payload: family resolution,
target resolution, apply loop and republish all proceed, and the parse
error never propagates. -/
theorem c8_parse_failure_empty_object (st : EngineState) (bus : List BusEntry)
    (event : String) (buffers : List Buf) (payload : Except Unit JsVal)
    (h : payload = .error () ∨ payload = .ok .null) :
    handleEvent st bus event payload buffers =
      handleEvent st bus event (.ok (.obj [])) buffers := by
  have hd : parseData payload = parseData (.ok (.obj [])) := by
    rcases h with h | h <;> subst h <;> rfl
  unfold handleEvent
  rw [hd]

/-- Witness for C8: a malformed payload on a video-frame event dispatches
as the empty object. -/
theorem c8_parse_failure_empty_object_witness :
    handleEvent { emptyEngineState with media_video_frame_observers := [1] }
      [] "VideoFrameObserver_onCaptureVideoFrame" (.error ()) [] =
    handleEvent { emptyEngineState with media_video_frame_observers := [1] }
      [] "VideoFrameObserver_onCaptureVideoFrame" (.ok (.obj [])) [] :=
  c8_parse_failure_empty_object _ _ _ _ _ (Or.inl rfl)

theorem find?_eq_get_of_first {α : Type _} (l : List α) (p : α → Bool) :
    ∀ (i : Nat) (hi : i < l.length),
      p (l.get ⟨i, hi⟩) = true →
      (∀ (j : Nat) (hj : j < i), p (l.get ⟨j, Nat.lt_trans hj hi⟩) = false) →
      l.find? p = some (l.get ⟨i, hi⟩) := by
  induction l with
  | nil => intro i hi; exact absurd hi (Nat.not_lt_zero i)
  | cons a t ih =>
    intro i hi hp hmin
    cases i with
    | zero => exact List.find?_cons_of_pos _ hp
    | succ n =>
      have ha : p a = false := hmin 0 (Nat.zero_lt_succ n)
      rw [List.find?_cons_of_neg _ (by simp [ha])]
      exact ih n (Nat.lt_of_succ_lt_succ hi) hp
        (fun j hj => hmin (j + 1) (Nat.succ_lt_succ hj))

/-- C2: family resolution selects the first entry of `EVENT_PROCESSORS`
whose name-prefix is a prefix of the raw event name; when no registered
family matches, the dispatch is the empty trace — no observer apply, no
preprocess execution, no bus publish (and `handleEvent` only reads the
registries, so no state changes). -/
theorem c2_first_match_or_silent_drop (event : String) (st : EngineState)
    (bus : List BusEntry) (payload : Except Unit JsVal) (buffers : List Buf) :
    ((∀ p ∈ EVENT_PROCESSORS, jsStartsWith event p.suffix = false) →
      handleEvent st bus event payload buffers = emptyTrace)
    ∧ ∀ (i : Nat) (hi : i < EVENT_PROCESSORS.length),
        jsStartsWith event (EVENT_PROCESSORS.get ⟨i, hi⟩).suffix = true →
        (∀ (j : Nat) (hj : j < i),
          jsStartsWith event (EVENT_PROCESSORS.get ⟨j, Nat.lt_trans hj hi⟩).suffix = false) →
        resolveFamily event = some (EVENT_PROCESSORS.get ⟨i, hi⟩) := by
  constructor
  · intro h
    have hnone : resolveFamily event = none :=
      List.find?_eq_none.mpr (fun p hp => by simp [h p hp])
    unfold handleEvent
    exact handleEventWithData_none st bus event (parseData payload) buffers hnone
  · intro i hi hp hmin
    exact find?_eq_get_of_first EVENT_PROCESSORS _ i hi hp hmin

/-- Witness for C2: an unmatched raw name is dropped silently, and a
video-frame event resolves to the second table entry even though the
first was inspected before it. -/
theorem c2_first_match_or_silent_drop_witness :
    handleEvent emptyEngineState [] "EngineUnknown_event" (.ok (.obj [])) [] = emptyTrace
    ∧ resolveFamily "VideoFrameObserver_onCaptureVideoFrame" =
        some (EVENT_PROCESSORS.get ⟨1, by decide⟩) :=
  ⟨(c2_first_match_or_silent_drop "EngineUnknown_event" emptyEngineState [] (.ok (.obj [])) []).1
     (by decide),
   (c2_first_match_or_silent_drop "VideoFrameObserver_onCaptureVideoFrame" emptyEngineState []
     (.ok (.obj [])) []).2 1 (by decide) (by decide)
     (fun j hj => by
       have hj0 : j = 0 := Nat.lt_one_iff.mp hj
       subst hj0
       exact (by decide :
         jsStartsWith "VideoFrameObserver_onCaptureVideoFrame"
           (EVENT_PROCESSORS.get ⟨0, by decide⟩).suffix = false))⟩

/-- C10: an `onLocalVideoStats` event whose payload carries a `connection`
field resolves to the no-targets sentinel, so the family apply loop is
skipped (no applies, no family-path preprocess), yet the normalized event
is still republished on the bus: with at least one listener subscribed for
`onLocalVideoStats` the listener invocations are non-empty and the
family's preprocess runs (once) inside the republish path instead. -/
theorem c10_no_targets_still_republishes (st : EngineState) (bus : List BusEntry)
    (fs : List (String × JsVal)) (buffers : List Buf)
    (hconn : (jsLookup fs "connection").isSome = true)
    (hbus : busListenerCount bus "onLocalVideoStats" ≠ 0) :
    (handleEvent st bus "RtcEngineEventHandler_onLocalVideoStats"
      (.ok (.obj fs)) buffers).applies = []
    ∧ (handleEvent st bus "RtcEngineEventHandler_onLocalVideoStats"
      (.ok (.obj fs)) buffers).preprocessFamily = 0
    ∧ (handleEvent st bus "RtcEngineEventHandler_onLocalVideoStats"
      (.ok (.obj fs)) buffers).preprocessEmit = 1
    ∧ (handleEvent st bus "RtcEngineEventHandler_onLocalVideoStats"
      (.ok (.obj fs)) buffers).busCalls ≠ [] := by
  have hfind : resolveFamily "RtcEngineEventHandler_onLocalVideoStats" =
      some IRtcEngineEventHandlerProcessor := rfl
  have hd : parseData (.ok (.obj fs)) = .obj fs := rfl
  have hh : IRtcEngineEventHandlerProcessor.handlers
      (normalizeEvent IRtcEngineEventHandlerProcessor.suffix
        "RtcEngineEventHandler_onLocalVideoStats")
      (parseData (.ok (.obj fs))) st = none := by
    show (if ("onLocalVideoStats" == "onLocalVideoStats")
            && hasField (.obj fs) "connection" then none
          else some (st.rtc_event_handlers.map some)) = none
    simp [hasField, hconn]
  unfold handleEvent
  rw [handleEventWithData_some st bus "RtcEngineEventHandler_onLocalVideoStats"
        (parseData (.ok (.obj fs))) buffers IRtcEngineEventHandlerProcessor hfind,
      dispatchWithProcessor_no_targets st bus IRtcEngineEventHandlerProcessor
        "RtcEngineEventHandler_onLocalVideoStats" (parseData (.ok (.obj fs))) buffers hh]
  have hcount : (busListenerCount bus
      (normalizeEvent IRtcEngineEventHandlerProcessor.suffix
        "RtcEngineEventHandler_onLocalVideoStats") = 0) = False := by
    simpa using hbus
  have hemit : emitEventModel bus
      (normalizeEvent IRtcEngineEventHandlerProcessor.suffix
        "RtcEngineEventHandler_onLocalVideoStats")
      IRtcEngineEventHandlerProcessor.preprocess (parseData (.ok (.obj fs)))
      (some buffers) =
      (1, (bus.filter (fun b => b.event == "onLocalVideoStats")).map
            (fun b => (b.cbId, "onLocalVideoStats",
              rtcEngineEventHandlerPreprocess "onLocalVideoStats" (.obj fs) buffers))) := by
    unfold emitEventModel
    rw [if_neg (by simpa using hbus)]
    rfl
  rw [hemit]
  refine ⟨rfl, rfl, rfl, ?_⟩
  intro hmap
  apply hbus
  have hfil := List.map_eq_nil_iff.mp hmap
  simpa [busListenerCount] using congrArg List.length hfil

theorem exceptOkBind {ε α β : Type _} (a : α) (g : α → Except ε β) :
    ((Except.ok a : Except ε α) >>= g) = g a := rfl

theorem callIrisApiBody_ok (ctx : CallCtx) (bridge : BridgeFn)
    (stringifyFn : JsVal → String) (parse : String → Except Unit JsVal)
    (dbg : Bool) (funcName : String) (params : JsVal) (m : MarshalOut)
    (hm : marshalModel ctx funcName params = .ok m) :
    callIrisApiBody ctx bridge stringifyFn parse dbg funcName params =
      callWithMarshal bridge parse dbg funcName (stringifyFn m.serialized) m := by
  unfold callIrisApiBody
  rw [hm]

theorem callWithMarshal_no_release (bridge : BridgeFn)
    (parse : String → Except Unit JsVal) (dbg : Bool) (funcName json : String)
    (m : MarshalOut) (hr : m.release = false) :
    callWithMarshal bridge parse dbg funcName json m =
      (m.preOps ++ [.callApi funcName json m.buffers m.buffers.length],
       decodeResult parse dbg (bridge funcName json m.buffers m.buffers.length)) := by
  unfold callWithMarshal
  rw [hr, if_neg Bool.false_ne_true]

theorem callIrisApi_calls (ctx : CallCtx) (bridge : BridgeFn)
    (stringifyFn : JsVal → String) (parse : String → Except Unit JsVal)
    (dbg : Bool) (funcName : String) (params : JsVal) (m : MarshalOut)
    (hm : marshalModel ctx funcName params = .ok m) (hr : m.release = false) :
    (callIrisApi ctx bridge stringifyFn parse dbg funcName params).calls =
      m.preOps ++ [.callApi funcName (stringifyFn m.serialized) m.buffers m.buffers.length] := by
  unfold callIrisApi
  rw [callIrisApiBody_ok ctx bridge stringifyFn parse dbg funcName params m hm,
    callWithMarshal_no_release bridge parse dbg funcName (stringifyFn m.serialized) m hr]
  cases hd : decodeResult parse dbg
      (bridge funcName (stringifyFn m.serialized) m.buffers m.buffers.length) with
  | error e => rfl
  | ok v => cases v with | mk a b => rfl

/-- C3 counterexample at the claim's own input (a `frame.buffer` present,
no `alphaBuffer`): the code passes the five slots
`[frame buffer, empty, empty, undefined, empty]` to the boundary — the
fourth slot is the raw (absent, hence `undefined`) `alphaBuffer` field and
the empty placeholder comes last — whereas the claimed order
"frame buffer, three empty placeholders, then alpha buffer or empty"
yields `[frame buffer, empty, empty, empty, empty]`. -/
theorem c3_claimed_slot_order_counterexample :
    callApiBuffers (callIrisApi engineCtx (fun _ _ _ _ => ⟨0, some "{}"⟩)
      (fun _ => "") (fun _ => .ok (.obj [])) false "MediaEngine_pushVideoFrame"
      (.obj [("frame", .obj [("buffer", .buf [1, 2])])])).calls =
      [[.buf [1, 2], .buf [], .buf [], .undefined, .buf []]]
    ∧ pushVideoFrameClaimedSlots (.obj [("frame", .obj [("buffer", .buf [1, 2])])]) =
      [.buf [1, 2], .buf [], .buf [], .buf [], .buf []]
    ∧ [JsVal.buf [1, 2], .buf [], .buf [], .undefined, .buf []] ≠
      pushVideoFrameClaimedSlots (.obj [("frame", .obj [("buffer", .buf [1, 2])])]) := by
  refine ⟨rfl, rfl, ?_⟩
  rw [show pushVideoFrameClaimedSlots (.obj [("frame", .obj [("buffer", .buf [1, 2])])]) =
    [.buf [1, 2], .buf [], .buf [], .buf [], .buf []] from rfl]
  simp

/-- C3 amended: for a `MediaEngine_pushVideoFrame` call whose argument
object has a `frame` object with a `buffer` field and no `alphaBuffer`
field, the dispatcher extracts exactly 5 ordered buffer slots — the frame
buffer, two empty placeholders, the raw `alphaBuffer` slot (`undefined`
when the field is absent), then one final empty placeholder — into the
outbound buffer list, and passes them with buffer count 5 to the boundary
endpoint. -/
theorem c3_push_video_frame_five_slots (ctx : CallCtx) (bridge : BridgeFn)
    (stringifyFn : JsVal → String) (parse : String → Except Unit JsVal) (dbg : Bool)
    (ps fs : List (String × JsVal)) (b : JsVal)
    (h1 : jsLookup ps "frame" = some (.obj fs))
    (h2 : jsLookup fs "buffer" = some b)
    (h3 : jsLookup fs "alphaBuffer" = none) :
    marshalModel ctx "MediaEngine_pushVideoFrame" (.obj ps) =
      .ok ⟨[b, .buf [], .buf [], .undefined, .buf []], .obj ps, [], false⟩
    ∧ callApiBuffers (callIrisApi ctx bridge stringifyFn parse dbg
        "MediaEngine_pushVideoFrame" (.obj ps)).calls =
      [[b, .buf [], .buf [], .undefined, .buf []]]
    ∧ callApiBufferCounts (callIrisApi ctx bridge stringifyFn parse dbg
        "MediaEngine_pushVideoFrame" (.obj ps)).calls = [5] := by
  have e1 : propAccess (JsVal.obj ps) "frame" = .ok (.obj fs) := by
    simp [propAccess, getField, h1]
  have e2 : propAccess (JsVal.obj fs) "buffer" = .ok b := by
    simp [propAccess, getField, h2]
  have e3 : propAccess (JsVal.obj fs) "alphaBuffer" = .ok .undefined := by
    simp [propAccess, getField, h3]
  have hm : marshalModel ctx "MediaEngine_pushVideoFrame" (.obj ps) =
      .ok ⟨[b, .buf [], .buf [], .undefined, .buf []], .obj ps, [], false⟩ := by
    rw [show marshalModel ctx "MediaEngine_pushVideoFrame" (JsVal.obj ps) =
      (do
        let f ← propAccess (JsVal.obj ps) "frame"
        let b2 ← propAccess f "buffer"
        let f2 ← propAccess (JsVal.obj ps) "frame"
        let a ← propAccess f2 "alphaBuffer"
        Except.ok (⟨[b2, .buf [], .buf [], a, .buf []], .obj ps, [], false⟩ : MarshalOut))
      from rfl]
    simp only [e1, e2, e3, exceptOkBind]
  have hcalls := callIrisApi_calls ctx bridge stringifyFn parse dbg
    "MediaEngine_pushVideoFrame" (.obj ps)
    ⟨[b, .buf [], .buf [], .undefined, .buf []], .obj ps, [], false⟩ hm rfl
  refine ⟨hm, ?_, ?_⟩ <;> rw [hcalls] <;> rfl

/-- Witness for the amended C3 at a concrete call. -/
theorem c3_push_video_frame_five_slots_witness :
    marshalModel engineCtx "MediaEngine_pushVideoFrame"
      (.obj [("frame", .obj [("buffer", .buf [9])])]) =
      .ok ⟨[.buf [9], .buf [], .buf [], .undefined, .buf []],
        .obj [("frame", .obj [("buffer", .buf [9])])], [], false⟩
    ∧ callApiBuffers (callIrisApi engineCtx (fun _ _ _ _ => ⟨0, some "{}"⟩)
        (fun _ => "") (fun _ => .ok (.obj [])) false "MediaEngine_pushVideoFrame"
        (.obj [("frame", .obj [("buffer", .buf [9])])])).calls =
      [[.buf [9], .buf [], .buf [], .undefined, .buf []]]
    ∧ callApiBufferCounts (callIrisApi engineCtx (fun _ _ _ _ => ⟨0, some "{}"⟩)
        (fun _ => "") (fun _ => .ok (.obj [])) false "MediaEngine_pushVideoFrame"
        (.obj [("frame", .obj [("buffer", .buf [9])])])).calls = [5] :=
  c3_push_video_frame_five_slots engineCtx (fun _ _ _ _ => ⟨0, some "{}"⟩)
    (fun _ => "") (fun _ => .ok (.obj [])) false
    [("frame", .obj [("buffer", .buf [9])])] [("buffer", .buf [9])] (.buf [9])
    rfl rfl rfl

/-- C4: whenever the `try` body of `callIrisApi` raises an exception
during marshaling or boundary-result decoding, the call returns the empty
result object after logging once — at error level in debug mode, warning
level otherwise, with exactly the boundary operations already performed.
`callIrisApi` is a total function of its inputs: by construction no
exception propagates to the caller. -/
theorem c4_exception_degrades_to_empty (ctx : CallCtx) (bridge : BridgeFn)
    (stringifyFn : JsVal → String) (parse : String → Except Unit JsVal)
    (dbg : Bool) (funcName : String) (params : JsVal)
    (ops : List EnvOp) (e : Unit)
    (h : callIrisApiBody ctx bridge stringifyFn parse dbg funcName params = (ops, .error e)) :
    callIrisApi ctx bridge stringifyFn parse dbg funcName params =
      ⟨.obj [], [if dbg then .error else .warn], ops⟩ := by
  unfold callIrisApi
  rw [h]

/-- Witness for C4: `MediaEngine_pushAudioFrame` with an argument object
lacking `frame` throws a `TypeError` while marshaling
(`params.frame.buffer`); the call still returns `{}` and logs a warning
outside debug mode. -/
theorem c4_exception_degrades_to_empty_witness :
    callIrisApiBody engineCtx (fun _ _ _ _ => ⟨0, none⟩) (fun _ => "")
      (fun _ => .error ()) false "MediaEngine_pushAudioFrame" (.obj []) =
      ([], .error ())
    ∧ callIrisApi engineCtx (fun _ _ _ _ => ⟨0, none⟩) (fun _ => "")
      (fun _ => .error ()) false "MediaEngine_pushAudioFrame" (.obj []) =
      ⟨.obj [], [.warn], []⟩ :=
  ⟨rfl,
   c4_exception_degrades_to_empty engineCtx (fun _ _ _ _ => ⟨0, none⟩) (fun _ => "")
     (fun _ => .error ()) false "MediaEngine_pushAudioFrame" (.obj []) [] () rfl⟩

/-- C5: when the boundary endpoint returns an empty or absent
`resultText` together with a numeric `returnCode`, the dispatcher returns
the synthesized object `{ result: returnCode }` and logs at warning level
outside debug mode, error level in debug mode. -/
theorem c5_empty_result_synthesized (ctx : CallCtx) (bridge : BridgeFn)
    (stringifyFn : JsVal → String) (parse : String → Except Unit JsVal)
    (dbg : Bool) (funcName : String) (params : JsVal) (m : MarshalOut)
    (hm : marshalModel ctx funcName params = .ok m)
    (hr : m.release = false)
    (hres : (bridge funcName (stringifyFn m.serialized) m.buffers m.buffers.length).callApiResult
        = none
      ∨ (bridge funcName (stringifyFn m.serialized) m.buffers m.buffers.length).callApiResult
        = some "") :
    (callIrisApi ctx bridge stringifyFn parse dbg funcName params).ret =
      .obj [("result",
        .num (bridge funcName (stringifyFn m.serialized) m.buffers m.buffers.length).callApiReturnCode)]
    ∧ (callIrisApi ctx bridge stringifyFn parse dbg funcName params).logs =
      [if dbg then LogLevel.error else LogLevel.warn] := by
  have hdec : decodeResult parse dbg
      (bridge funcName (stringifyFn m.serialized) m.buffers m.buffers.length) =
      .ok (.obj [("result",
        .num (bridge funcName (stringifyFn m.serialized) m.buffers m.buffers.length).callApiReturnCode)],
        [if dbg then LogLevel.error else LogLevel.warn]) := by
    unfold decodeResult
    rcases hres with hres | hres <;> rw [hres] <;> rfl
  unfold callIrisApi
  rw [callIrisApiBody_ok ctx bridge stringifyFn parse dbg funcName params m hm,
    callWithMarshal_no_release bridge parse dbg funcName (stringifyFn m.serialized) m hr,
    hdec]
  exact ⟨rfl, rfl⟩

/-- Witness for C5: the boundary returns `resultText = ""` and
`returnCode = -7` on a plain engine call outside debug mode — the result
is `{ result: -7 }` and a warning (not an error) is logged. -/
theorem c5_empty_result_synthesized_witness :
    (callIrisApi engineCtx (fun _ _ _ _ => ⟨-7, some ""⟩) (fun _ => "")
      (fun _ => .error ()) false "RtcEngine_getVersion" (.obj [])).ret =
      .obj [("result", .num (-7))]
    ∧ (callIrisApi engineCtx (fun _ _ _ _ => ⟨-7, some ""⟩) (fun _ => "")
      (fun _ => .error ()) false "RtcEngine_getVersion" (.obj [])).logs = [.warn] :=
  c5_empty_result_synthesized engineCtx (fun _ _ _ _ => ⟨-7, some ""⟩) (fun _ => "")
    (fun _ => .error ()) false "RtcEngine_getVersion" (.obj [])
    ⟨[], .obj [], [], false⟩ rfl rfl (Or.inr rfl)

/-- C6 at the failing input: with the direct-CDN-streaming registry empty
(a strict category), `_addListenerPreCheck` returns `false` and reports
the user-facing diagnostic — but `addListener` discards that result and
attaches the listener anyway, so a subsequently dispatched matching event
invokes the attached bus callback once (not zero times), and the derived
callback forwards it to the user listener. The permissive engine-event
category auto-registers a default empty handler and proceeds, as the claim
says. -/
theorem c6_strict_attach_not_refused :
    addListenerPreCheck checkersModel emptyEngineState
      "onDirectCdnStreamingStateChanged" 100 101 =
      (false, emptyEngineState, [directCdnDiag])
    ∧ rtcAddListener checkersModel emptyEngineState []
        "onDirectCdnStreamingStateChanged" ⟨5, none⟩ 9 100 101 =
      (emptyEngineState, [⟨"onDirectCdnStreamingStateChanged", 9⟩], ⟨5, some 9⟩)
    ∧ (handleEvent emptyEngineState [⟨"onDirectCdnStreamingStateChanged", 9⟩]
        "DirectCdnStreamingEventHandler_onDirectCdnStreamingStateChanged"
        (.ok (.obj [])) []).busCalls =
      [(9, "onDirectCdnStreamingStateChanged", .obj [])]
    ∧ rtcListenerCallback "onDirectCdnStreamingStateChanged" 5
        IDirectCdnStreamingEventHandlerProcessor (.obj []) =
      [(.processIDirectCdnStreamingEventHandler, 5,
        "onDirectCdnStreamingStateChanged", .obj [])]
    ∧ addListenerPreCheck checkersModel emptyEngineState "onJoinChannelSuccess" 100 101 =
      (true, { emptyEngineState with rtc_event_handlers := [100] }, []) :=
  ⟨rfl, rfl, rfl, rfl, rfl⟩

theorem busEmitCalls_cons (b : BusEntry) (t : List BusEntry) (ev : String) :
    busEmitCalls (b :: t) ev =
      if b.event = ev then b.cbId :: busEmitCalls t ev else busEmitCalls t ev := by
  by_cases hb : b.event = ev <;> simp [busEmitCalls, List.filter_cons, hb]

theorem eeRemoveListener_none_cons (b : BusEntry) (t : List BusEntry) (name : String) :
    eeRemoveListener (b :: t) name none =
      if b.event = name then eeRemoveListener t name none
      else b :: eeRemoveListener t name none := by
  by_cases hb : b.event = name <;> simp [eeRemoveListener, List.filter_cons, hb]

theorem eeRemoveListener_some_cons (b : BusEntry) (t : List BusEntry)
    (name : String) (f : Nat) :
    eeRemoveListener (b :: t) name (some f) =
      if b.event = name ∧ b.cbId = f then eeRemoveListener t name (some f)
      else b :: eeRemoveListener t name (some f) := by
  by_cases hb : b.event = name <;> by_cases hc : b.cbId = f <;>
    simp [eeRemoveListener, List.filter_cons, hb, hc]

theorem busEmitCalls_remove_all (bus : List BusEntry) (name : String) :
    busEmitCalls (eeRemoveListener bus name none) name = [] := by
  induction bus with
  | nil => rfl
  | cons b t ih =>
    rw [eeRemoveListener_none_cons]
    by_cases hb : b.event = name
    · rw [if_pos hb]; exact ih
    · rw [if_neg hb, busEmitCalls_cons, if_neg hb]; exact ih

theorem busEmitCalls_remove_all_other (bus : List BusEntry) (name other : String)
    (h : other ≠ name) :
    busEmitCalls (eeRemoveListener bus name none) other = busEmitCalls bus other := by
  induction bus with
  | nil => rfl
  | cons b t ih =>
    rw [eeRemoveListener_none_cons, busEmitCalls_cons]
    by_cases hb : b.event = name
    · have hbo : ¬b.event = other := fun hc => h (hb ▸ hc ▸ rfl)
      rw [if_pos hb, if_neg hbo]; exact ih
    · rw [if_neg hb, busEmitCalls_cons]
      by_cases hbo : b.event = other
      · rw [if_pos hbo, if_pos hbo, ih]
      · rw [if_neg hbo, if_neg hbo]; exact ih

theorem busEmitCalls_remove_cb (bus : List BusEntry) (name : String) (f : Nat) :
    busEmitCalls (eeRemoveListener bus name (some f)) name =
      (busEmitCalls bus name).filter (fun c => !(c == f)) := by
  induction bus with
  | nil => rfl
  | cons b t ih =>
    rw [eeRemoveListener_some_cons, busEmitCalls_cons]
    by_cases hb : b.event = name
    · by_cases hc : b.cbId = f
      · rw [if_pos ⟨hb, hc⟩, if_pos hb, List.filter_cons, if_neg (by simp [hc])]
        exact ih
      · rw [if_neg (fun hx => hc hx.2), busEmitCalls_cons, if_pos hb, if_pos hb,
          List.filter_cons, if_pos (by simp [hc]), ih]
    · rw [if_neg (fun hx => hb hx.1), busEmitCalls_cons, if_neg hb, if_neg hb]
      exact ih

theorem busEmitCalls_remove_cb_other (bus : List BusEntry) (name other : String)
    (f : Nat) (h : other ≠ name) :
    busEmitCalls (eeRemoveListener bus name (some f)) other = busEmitCalls bus other := by
  induction bus with
  | nil => rfl
  | cons b t ih =>
    rw [eeRemoveListener_some_cons, busEmitCalls_cons]
    by_cases hb : b.event = name
    · have hbo : ¬b.event = other := fun hc => h (hb ▸ hc ▸ rfl)
      by_cases hc : b.cbId = f
      · rw [if_pos ⟨hb, hc⟩, if_neg hbo]; exact ih
      · rw [if_neg (fun hx => hc hx.2), busEmitCalls_cons, if_neg hbo, if_neg hbo]
        exact ih
    · rw [if_neg (fun hx => hb hx.1), busEmitCalls_cons]
      by_cases hbo : b.event = other
      · rw [if_pos hbo, if_pos hbo, ih]
      · rw [if_neg hbo, if_neg hbo]; exact ih

/-- C7: `removeListener(name)` with no callback removes every bus
subscription for that name — a subsequent emit for the name invokes zero
callbacks, while other names are untouched; `removeListener(name, cb)`
locates the subscription through the derived dispatch-callback stashed on
`cb` at registration and removes exactly the subscriptions bound to it,
leaving all other subscriptions (other callbacks of the same name, and
every other name) intact. -/
theorem c7_remove_listener (bus : List BusEntry) (name : String)
    (l : Listener) (f : Nat) :
    (busEmitCalls (rtcRemoveListener bus name none) name = []
      ∧ ∀ other : String, other ≠ name →
          busEmitCalls (rtcRemoveListener bus name none) other = busEmitCalls bus other)
    ∧ (l.agoraCallback = some f →
        busEmitCalls (rtcRemoveListener bus name (some l)) name =
          (busEmitCalls bus name).filter (fun c => !(c == f))
        ∧ ∀ other : String, other ≠ name →
            busEmitCalls (rtcRemoveListener bus name (some l)) other =
              busEmitCalls bus other) := by
  constructor
  · exact ⟨busEmitCalls_remove_all bus name,
      fun other h => busEmitCalls_remove_all_other bus name other h⟩
  · intro hcb
    have harg : rtcRemoveListener bus name (some l) = eeRemoveListener bus name (some f) := by
      unfold rtcRemoveListener
      show eeRemoveListener bus name (some (l.agoraCallback.getD l.id)) = _
      rw [hcb]
      rfl
    rw [harg]
    exact ⟨busEmitCalls_remove_cb bus name f,
      fun other h => busEmitCalls_remove_cb_other bus name other f h⟩

/-- Witness for C7 on a concrete bus: removing `"a"` without a callback
silences `"a"` emits; removing with a listener whose stashed derived
callback is `1` removes only that subscription. -/
theorem c7_remove_listener_witness :
    busEmitCalls (rtcRemoveListener [⟨"a", 1⟩, ⟨"a", 2⟩, ⟨"b", 3⟩] "a" none) "a" = []
    ∧ busEmitCalls (rtcRemoveListener [⟨"a", 1⟩, ⟨"a", 2⟩, ⟨"b", 3⟩] "a"
        (some ⟨10, some 1⟩)) "a" = [2]
    ∧ busEmitCalls (rtcRemoveListener [⟨"a", 1⟩, ⟨"a", 2⟩, ⟨"b", 3⟩] "a"
        (some ⟨10, some 1⟩)) "b" = [3] :=
  ⟨(c7_remove_listener [⟨"a", 1⟩, ⟨"a", 2⟩, ⟨"b", 3⟩] "a" ⟨10, some 1⟩ 1).1.1,
   by
    have h := ((c7_remove_listener [⟨"a", 1⟩, ⟨"a", 2⟩, ⟨"b", 3⟩] "a" ⟨10, some 1⟩ 1).2 rfl).1
    rw [h]
    rfl,
   by
    have h := ((c7_remove_listener [⟨"a", 1⟩, ⟨"a", 2⟩, ⟨"b", 3⟩] "a" ⟨10, some 1⟩ 1).2 rfl).2
      "b" (by decide)
    rw [h]
    rfl⟩

theorem registerObserverList_mem (l : List Obs) (o : Obs) (h : o ∈ l) :
    registerObserverList l o = l := by
  unfold registerObserverList
  rw [if_pos]
  rw [List.find?_isSome]
  exact ⟨o, h, by simp⟩

theorem registerObserverList_not_mem (l : List Obs) (o : Obs) (h : o ∉ l) :
    registerObserverList l o = l ++ [o] := by
  unfold registerObserverList
  rw [if_neg]
  intro hs
  rw [List.find?_isSome] at hs
  obtain ⟨x, hx, hbeq⟩ := hs
  exact h (beq_iff_eq.mp hbeq ▸ hx)

theorem registerObserverList_twice_count (l : List Obs) (o : Obs)
    (h : l.count o ≤ 1) :
    ((registerObserverList (registerObserverList l o) o).count o = 1) := by
  by_cases hmem : o ∈ l
  · rw [registerObserverList_mem l o hmem, registerObserverList_mem l o hmem]
    have hpos : 0 < l.count o := List.count_pos_iff_mem.mpr hmem
    omega
  · rw [registerObserverList_not_mem l o hmem,
      registerObserverList_mem _ o (by simp),
      List.count_append, List.count_eq_zero.mpr hmem]
    simp

/-- C9: the family-registry registrations are idempotent by object
identity — starting from any registry that holds at most one entry equal
to `o` (the invariant every reachable registry satisfies, since
registration is the only append and it dedupes), registering `o` twice
through `registerEventHandler`, `registerMediaMetadataObserver` or
`registerAudioEncodedFrameObserver` leaves exactly one entry equal to
`o`. -/
theorem c9_register_idempotent (st : EngineState) (o : Obs) :
    (st.rtc_event_handlers.count o ≤ 1 →
      (registerEventHandler (registerEventHandler st o) o).rtc_event_handlers.count o = 1)
    ∧ (st.rtc_metadata_observer.count o ≤ 1 →
      ((registerMediaMetadataObserver (registerMediaMetadataObserver st o) o).rtc_metadata_observer.count o = 1))
    ∧ (st.rtc_audio_encoded_frame_observers.count o ≤ 1 →
      ((registerAudioEncodedFrameObserver (registerAudioEncodedFrameObserver st o) o).rtc_audio_encoded_frame_observers.count o = 1)) :=
  ⟨fun h => registerObserverList_twice_count _ o h,
   fun h => registerObserverList_twice_count _ o h,
   fun h => registerObserverList_twice_count _ o h⟩

/-- Witness for C9: registering observer `3` twice into a registry already
holding it once, and into an empty metadata registry, both leave exactly
one entry. -/
theorem c9_register_idempotent_witness :
    (registerEventHandler (registerEventHandler
      { emptyEngineState with rtc_event_handlers := [3] } 3) 3).rtc_event_handlers.count 3 = 1
    ∧ ((registerMediaMetadataObserver (registerMediaMetadataObserver emptyEngineState 3) 3).rtc_metadata_observer.count 3 = 1) :=
  ⟨(c9_register_idempotent { emptyEngineState with rtc_event_handlers := [3] } 3).1 (by decide),
   (c9_register_idempotent emptyEngineState 3).2.1 (by decide)⟩

/-- Witness for C10 at a concrete dispatch: a `connection`-bearing
`onLocalVideoStats` payload with one bus listener registered. -/
theorem c10_no_targets_still_republishes_witness :
    (handleEvent emptyEngineState [⟨"onLocalVideoStats", 7⟩]
      "RtcEngineEventHandler_onLocalVideoStats"
      (.ok (.obj [("connection", .obj [])])) []).applies = []
    ∧ (handleEvent emptyEngineState [⟨"onLocalVideoStats", 7⟩]
      "RtcEngineEventHandler_onLocalVideoStats"
      (.ok (.obj [("connection", .obj [])])) []).preprocessFamily = 0
    ∧ (handleEvent emptyEngineState [⟨"onLocalVideoStats", 7⟩]
      "RtcEngineEventHandler_onLocalVideoStats"
      (.ok (.obj [("connection", .obj [])])) []).preprocessEmit = 1
    ∧ (handleEvent emptyEngineState [⟨"onLocalVideoStats", 7⟩]
      "RtcEngineEventHandler_onLocalVideoStats"
      (.ok (.obj [("connection", .obj [])])) []).busCalls ≠ [] :=
  c10_no_targets_still_republishes emptyEngineState [⟨"onLocalVideoStats", 7⟩]
    [("connection", .obj [])] [] rfl (by decide)
